import Mathlib

/-
Shallow embedding of `src/dual_cam_capture.py` (class `DualCameraController`).

Conventions of the embedding:
* Python `self` state is the structure `CtrlState`; every mutating method
  becomes a function `CtrlState → ... → CtrlState` (or returns extra
  observable outputs alongside the new state).
* The two `Picamera2` sensor handles, the cv2 codec and the display are
  external collaborators; their calls are modelled as explicit event traces
  (`DevEvent`), capture oracles (`Nat → Option (List Nat)`, `none` = the
  driver raises on `capture_array`), or function parameters (the cv2 overlay
  rendering).
* A frame/pixel buffer is a `List Nat` of channel values (0..255); the cv2
  call `convertScaleAbs(img, alpha, beta)` computes
  `saturate_cast<uchar>(|alpha*x + beta|)` per channel, which we model
  exactly on `List Nat`.
* A Python exception propagating out of a block is modelled by `none` /
  short-circuiting: the remaining statements of the block do not run.
-/

namespace DualCam

/-- The resolution_options list fixed in `__init__` (lines 15-20). -/
def resolution_options : List (Nat × Nat) :=
  [(640, 480), (1280, 720), (1920, 1080), (2592, 1944)]

/-- The save_directory string fixed in `__init__` (line 22). -/
def save_directory : String := "camera_captures"

/-- Mutable controller state from `__init__` (lines 10-21): active camera
index, preview flag, per-camera exposure and brightness lists, and the
shared resolution index. -/
structure CtrlState where
  active_camera : Nat
  preview_active : Bool
  exposure_values : List Int
  brightness_values : List Int
  current_resolution_idx : Nat
deriving Repr, DecidableEq

/-- Initial state set by `__init__`: active camera 0, preview on,
exposure `[0, 0]`, brightness `[0, 0]`, resolution index 0. -/
def initState : CtrlState :=
  { active_camera := 0
  , preview_active := true
  , exposure_values := [0, 0]
  , brightness_values := [0, 0]
  , current_resolution_idx := 0 }

/-- Python method `adjust_exposure(camera_idx, direction)` (lines 86-96): step 1; if
`direction == "up"` the exposure value is `min 8 (cur + 1)`, otherwise
(any other string) `max (-8) (cur - 1)`.  The `set_controls` device call
carries the stored value and is not itself observable in the claims. -/
def adjust_exposure (st : CtrlState) (camera_idx : Nat) (direction : String) : CtrlState :=
  let step : Int := 1
  let cur : Int := st.exposure_values.getD camera_idx 0
  let v : Int := if direction = "up" then min 8 (cur + step) else max (-8) (cur - step)
  { st with exposure_values := st.exposure_values.set camera_idx v }

/-- Python method `adjust_brightness(camera_idx, direction)` (lines 98-106): step 5; if
`direction == "up"` the brightness value is `min 100 (cur + 5)`, otherwise
(any other string) `max (-100) (cur - 5)`. -/
def adjust_brightness (st : CtrlState) (camera_idx : Nat) (direction : String) : CtrlState :=
  let step : Int := 5
  let cur : Int := st.brightness_values.getD camera_idx 0
  let v : Int := if direction = "up" then min 100 (cur + step) else max (-100) (cur - step)
  { st with brightness_values := st.brightness_values.set camera_idx v }

/-- One call into a Picamera2 sensor handle made by `change_resolution`. -/
inductive DevEvent
  | stop (idx : Nat)
  | configure (idx : Nat) (res : Nat × Nat)
  | start (idx : Nat)
deriving Repr, DecidableEq

/-- Slot index a device event is addressed to. -/
def DevEvent.slot : DevEvent → Nat
  | .stop i => i
  | .configure i _ => i
  | .start i => i

/-- Everything observable about one `change_resolution()` call: the new
controller state, the ordered trace of sensor-handle calls, and the Python
return value (`change_resolution` has no `return` statement, so it returns
`None`, modelled as `Option (Nat × Nat)` being `none`). -/
structure ChangeResOutcome where
  state : CtrlState
  events : List DevEvent
  ret : Option (Nat × Nat)
deriving Repr, DecidableEq

/-- Python method `change_resolution()` (lines 68-84): advances the index modulo the
option count, reads the newly selected resolution, then loops over the two
cameras in index order doing stop / configure-with-new-resolution / start,
and falls off the end (returning `None`). -/
def change_resolution (st : CtrlState) : ChangeResOutcome :=
  let idx := (st.current_resolution_idx + 1) % resolution_options.length
  let resolution := resolution_options.getD idx (0, 0)
  { state := { st with current_resolution_idx := idx }
  , events := (List.range 2).flatMap fun i =>
      [DevEvent.stop i, DevEvent.configure i resolution, DevEvent.start i]
  , ret := none }

/-- State part of one `change_resolution()` call. -/
def cycle_state (st : CtrlState) : CtrlState := (change_resolution st).state

/-- Model of the cv2 call convertScaleAbs on a channel buffer: per channel value
`saturate_cast<uchar>(|alpha*x + beta|)`, i.e. `min 255 |alpha*x + beta|`. -/
def convertScaleAbs (alpha : Int) (beta : Int) (img : List Nat) : List Nat :=
  img.map fun c => min 255 (Int.natAbs (alpha * (c : Int) + beta))

/-- Filename built at the top of `capture_image` (lines 53-54):
`{save_directory}/camera{camera_idx+1}_{timestamp}.jpg`, where `timestamp`
is `time.strftime("%Y%m%d_%H%M%S")` evaluated at the time of the call
(second resolution); we take that string as a parameter. -/
def capture_filename (camera_idx : Nat) (timestamp : String) : String :=
  save_directory ++ "/camera" ++ toString (camera_idx + 1) ++ "_" ++ timestamp ++ ".jpg"

/-- Python method `capture_image(camera_idx)` (lines 51-66).  `cap i` is the sensor
handle's `capture_array()`: `none` means the driver raised, which
propagates (result `none`); otherwise brightness is applied via
`convertScaleAbs(img, alpha=1, beta=brightness)` exactly when the stored
brightness is nonzero, and `cv2.imwrite(filename, img)` writes the
processed frame.  The result `some (filename, img)` packages the Python
return value (the filename) together with the frame content written to
disk; no overlay step occurs in this method. -/
def capture_image (st : CtrlState) (camera_idx : Nat)
    (cap : Nat → Option (List Nat)) (timestamp : String) :
    Option (String × List Nat) :=
  let filename := capture_filename camera_idx timestamp
  match cap camera_idx with
  | none => none
  | some img =>
    let img := if st.brightness_values.getD camera_idx 0 ≠ 0
      then convertScaleAbs 1 (st.brightness_values.getD camera_idx 0) img
      else img
    some (filename, img)

/-- Body of the `d` branch of the key handler (lines 194-197):
`for i in range(2): self.capture_image(i)` over the given index list.
First component: `some ()` when the loop completes, `none` when a
`capture_image` call raised (the exception propagates and the remaining
indices are not attempted).  Second component: the files actually written
before the failure, in order (a file written by an earlier successful
`capture_image` stays on disk even when a later one raises). -/
def save_all_go (st : CtrlState) (cap : Nat → Option (List Nat)) (timestamp : String) :
    List Nat → Option Unit × List (String × List Nat)
  | [] => (some (), [])
  | i :: rest =>
    match capture_image st i cap timestamp with
    | none => (none, [])
    | some f =>
      let (r, fs) := save_all_go st cap timestamp rest
      (r, f :: fs)

/-- The `d` (save both cameras) dispatch: `for i in range(2)`. -/
def save_all (st : CtrlState) (cap : Nat → Option (List Nat)) (timestamp : String) :
    Option Unit × List (String × List Nat) :=
  save_all_go st cap timestamp (List.range 2)

/-- Frame-capture section of one main-loop iteration (lines 154-165), over
the given camera index list.  `cap i` is camera i's `capture_array()`
(`none` = the driver raised); `overlay st i frame` is
`add_info_overlay(frame, i)`, whose cv2 text/rectangle rendering is an
external collaborator and is taken as a function parameter.  First
component: `some frames` when every capture succeeded (brightness applied
when nonzero, then overlay), `none` when some capture raised — the
exception propagates out of the `for` (and of `run`, which has no
handler), so later cameras are not captured.  Second component: the set of
camera indices on which `capture_array` was actually invoked, in order. -/
def loop_capture_go (overlay : CtrlState → Nat → List Nat → List Nat)
    (st : CtrlState) (cap : Nat → Option (List Nat)) :
    List Nat → Option (List (List Nat)) × List Nat
  | [] => (some [], [])
  | i :: rest =>
    match cap i with
    | none => (none, [i])
    | some frame =>
      let frame := if st.brightness_values.getD i 0 ≠ 0
        then convertScaleAbs 1 (st.brightness_values.getD i 0) frame
        else frame
      let frame := overlay st i frame
      let (r, tr) := loop_capture_go overlay st cap rest
      (Option.map (fun fs => frame :: fs) r, i :: tr)

/-- Frame-capture section of one main-loop iteration over both cameras. -/
def loop_capture (overlay : CtrlState → Nat → List Nat → List Nat)
    (st : CtrlState) (cap : Nat → Option (List Nat)) :
    Option (List (List Nat)) × List Nat :=
  loop_capture_go overlay st cap (List.range 2)

/-- Result of dispatching one key in the main loop (lines 174-225): the new
controller state, whether the loop breaks (`q`), which camera indices get a
`capture_image` call (in order), and the device events of a
`change_resolution` call. -/
structure DispatchResult where
  state : CtrlState
  quit : Bool
  saves : List Nat
  dev_events : List DevEvent
deriving Repr, DecidableEq

/-- Keyboard dispatch of the main loop (lines 176-225): the `if/elif`
chain on the key read by `cv2.waitKey`.  A key matching none of the
branches falls through the chain: no operation, no state change. -/
def handle_key (st : CtrlState) (key : Char) : DispatchResult :=
  if key = 'q' then { state := st, quit := true, saves := [], dev_events := [] }
  else if key = '1' then
    { state := { st with active_camera := 0 }, quit := false, saves := [], dev_events := [] }
  else if key = '2' then
    { state := { st with active_camera := 1 }, quit := false, saves := [], dev_events := [] }
  else if key = 's' then
    { state := st, quit := false, saves := [st.active_camera], dev_events := [] }
  else if key = 'd' then
    { state := st, quit := false, saves := List.range 2, dev_events := [] }
  else if key = 'r' then
    let o := change_resolution st
    { state := o.state, quit := false, saves := [], dev_events := o.events }
  else if key = 'e' then
    { state := adjust_exposure st st.active_camera "up", quit := false, saves := [], dev_events := [] }
  else if key = 'c' then
    { state := adjust_exposure st st.active_camera "down", quit := false, saves := [], dev_events := [] }
  else if key = 'b' then
    { state := adjust_brightness st st.active_camera "up", quit := false, saves := [], dev_events := [] }
  else if key = 'v' then
    { state := adjust_brightness st st.active_camera "down", quit := false, saves := [], dev_events := [] }
  else if key = 'p' then
    { state := { st with preview_active := !st.preview_active }, quit := false, saves := [], dev_events := [] }
  else { state := st, quit := false, saves := [], dev_events := [] }

/-- Key symbols that have a branch in the dispatch chain. -/
def recognized_keys : List Char := ['q', '1', '2', 's', 'd', 'r', 'e', 'c', 'b', 'v', 'p']

/-- One exposure or brightness adjustment command, with an arbitrary
direction string. -/
inductive AdjCmd
  | exp (camera_idx : Nat) (direction : String)
  | bri (camera_idx : Nat) (direction : String)

/-- Apply one adjustment command to the state. -/
def applyAdj (st : CtrlState) : AdjCmd → CtrlState
  | .exp i d => adjust_exposure st i d
  | .bri i d => adjust_brightness st i d

/-- Bounds invariant of the parameter store: every stored exposure value is
in [-8, 8] and every stored brightness value is in [-100, 100]. -/
def paramInvariant (st : CtrlState) : Prop :=
  (∀ v ∈ st.exposure_values, -8 ≤ v ∧ v ≤ 8) ∧
  (∀ v ∈ st.brightness_values, -100 ≤ v ∧ v ≤ 100)

instance (st : CtrlState) : Decidable (paramInvariant st) := by
  unfold paramInvariant; infer_instance

/-- Capture oracle where camera 0's `capture_array` raises and camera 1
delivers the frame `[1, 2, 3]`. -/
def capFail0 : Nat → Option (List Nat) :=
  fun i => if i = 0 then none else some [1, 2, 3]

/-- Overlay that leaves the frame unchanged (a concrete instantiation of
the external cv2 rendering). -/
def idOverlay : CtrlState → Nat → List Nat → List Nat := fun _ _ f => f

/-- Capture oracle where every camera delivers the frame `[1, 2, 3]`. -/
def capOk : Nat → Option (List Nat) := fun _ => some [1, 2, 3]

/-- Capture oracle where camera 1's `capture_array` raises and camera 0
delivers the frame `[9]`. -/
def capFail1 : Nat → Option (List Nat) :=
  fun i => if i = 1 then none else some [9]

/-- Well-formedness of the controller state as maintained by the program:
the parameter bounds hold and both parameter lists have one entry per
camera. -/
def wellFormed (st : CtrlState) : Prop :=
  paramInvariant st ∧ st.exposure_values.length = 2 ∧ st.brightness_values.length = 2

instance (st : CtrlState) : Decidable (wellFormed st) := by
  unfold wellFormed; infer_instance

/-- Reading a list whose members all lie in an interval containing the
default 0 yields a value in that interval, at any index. -/
lemma getD_bounds (l : List Int) (lo hi : Int) (h : ∀ v ∈ l, lo ≤ v ∧ v ≤ hi)
    (hlo : lo ≤ 0) (hhi : 0 ≤ hi) (i : Nat) : lo ≤ l.getD i 0 ∧ l.getD i 0 ≤ hi := by
  rw [List.getD_eq_getElem?_getD]
  by_cases hlen : i < l.length
  · rw [List.getElem?_eq_getElem hlen]
    exact h _ (List.getElem_mem hlen)
  · rw [List.getElem?_eq_none (by omega)]
    exact ⟨hlo, hhi⟩

/-- Writing back the value already stored at a valid index leaves the list
unchanged. -/
lemma set_getD_self : ∀ (l : List Int) (i : Nat), i < l.length → l.set i (l.getD i 0) = l := by
  intro l
  induction l with
  | nil => intro i h; simp at h
  | cons a t ih =>
    intro i h
    cases i with
    | zero => rfl
    | succ j =>
      simp only [List.set, List.getD, List.get?_cons_succ]
      have := ih j (by simpa using h)
      simp only [List.getD] at this
      rw [this]

/-- Unfolding equation for the exposure list after `adjust_exposure`. -/
@[simp] lemma adjust_exposure_exposure_values (st : CtrlState) (i : Nat) (d : String) :
    (adjust_exposure st i d).exposure_values =
      st.exposure_values.set i
        (if d = "up" then min 8 (st.exposure_values.getD i 0 + 1)
         else max (-8) (st.exposure_values.getD i 0 - 1)) := rfl

/-- The fields other than the exposure list are untouched by
`adjust_exposure`. -/
@[simp] lemma adjust_exposure_other_fields (st : CtrlState) (i : Nat) (d : String) :
    (adjust_exposure st i d).active_camera = st.active_camera ∧
    (adjust_exposure st i d).preview_active = st.preview_active ∧
    (adjust_exposure st i d).brightness_values = st.brightness_values ∧
    (adjust_exposure st i d).current_resolution_idx = st.current_resolution_idx :=
  ⟨rfl, rfl, rfl, rfl⟩

/-- Unfolding equation for the brightness list after `adjust_brightness`. -/
@[simp] lemma adjust_brightness_brightness_values (st : CtrlState) (i : Nat) (d : String) :
    (adjust_brightness st i d).brightness_values =
      st.brightness_values.set i
        (if d = "up" then min 100 (st.brightness_values.getD i 0 + 5)
         else max (-100) (st.brightness_values.getD i 0 - 5)) := rfl

/-- The fields other than the brightness list are untouched by
`adjust_brightness`. -/
@[simp] lemma adjust_brightness_other_fields (st : CtrlState) (i : Nat) (d : String) :
    (adjust_brightness st i d).active_camera = st.active_camera ∧
    (adjust_brightness st i d).preview_active = st.preview_active ∧
    (adjust_brightness st i d).exposure_values = st.exposure_values ∧
    (adjust_brightness st i d).current_resolution_idx = st.current_resolution_idx :=
  ⟨rfl, rfl, rfl, rfl⟩

/-- One `adjust_exposure` call preserves well-formedness, for any camera
index and any direction string. -/
lemma wellFormed_adjust_exposure (st : CtrlState) (i : Nat) (d : String)
    (h : wellFormed st) : wellFormed (adjust_exposure st i d) := by
  obtain ⟨⟨he, hb⟩, hl1, hl2⟩ := h
  obtain ⟨hc1, hc2⟩ := getD_bounds st.exposure_values (-8) 8 he (by norm_num) (by norm_num) i
  refine ⟨⟨?_, hb⟩, ?_, hl2⟩
  · intro v hv
    rw [adjust_exposure_exposure_values] at hv
    rcases List.mem_or_eq_of_mem_set hv with h' | h'
    · exact he v h'
    · subst h'
      by_cases hd : d = "up"
      · rw [if_pos hd]
        exact ⟨le_min (by norm_num) (by omega), min_le_left _ _⟩
      · rw [if_neg hd]
        exact ⟨le_max_left _ _, max_le (by norm_num) (by omega)⟩
  · rw [adjust_exposure_exposure_values, List.length_set]
    exact hl1

/-- One `adjust_brightness` call preserves well-formedness, for any camera
index and any direction string. -/
lemma wellFormed_adjust_brightness (st : CtrlState) (i : Nat) (d : String)
    (h : wellFormed st) : wellFormed (adjust_brightness st i d) := by
  obtain ⟨⟨he, hb⟩, hl1, hl2⟩ := h
  obtain ⟨hc1, hc2⟩ := getD_bounds st.brightness_values (-100) 100 hb (by norm_num) (by norm_num) i
  refine ⟨⟨he, ?_⟩, hl1, ?_⟩
  · intro v hv
    rw [adjust_brightness_brightness_values] at hv
    rcases List.mem_or_eq_of_mem_set hv with h' | h'
    · exact hb v h'
    · subst h'
      by_cases hd : d = "up"
      · rw [if_pos hd]
        exact ⟨le_min (by norm_num) (by omega), min_le_left _ _⟩
      · rw [if_neg hd]
        exact ⟨le_max_left _ _, max_le (by norm_num) (by omega)⟩
  · rw [adjust_brightness_brightness_values, List.length_set]
    exact hl2

/-- Any sequence of adjustment commands preserves well-formedness. -/
lemma wellFormed_foldl (cmds : List AdjCmd) (st : CtrlState) (h : wellFormed st) :
    wellFormed (cmds.foldl applyAdj st) := by
  induction cmds generalizing st with
  | nil => exact h
  | cons c rest ih =>
    cases c with
    | exp i d => exact ih _ (wellFormed_adjust_exposure _ _ _ h)
    | bri i d => exact ih _ (wellFormed_adjust_brightness _ _ _ h)

/-- When stepping would write back the value already stored (as happens at
a bound), `adjust_exposure` is the identity on the whole state. -/
lemma adjust_exposure_noop (st : CtrlState) (i : Nat) (d : String)
    (hlen : i < st.exposure_values.length)
    (h : (d = "up" ∧ st.exposure_values.getD i 0 = 8) ∨
         (d ≠ "up" ∧ st.exposure_values.getD i 0 = -8)) :
    adjust_exposure st i d = st := by
  obtain ⟨a, p, e, b, r⟩ := st
  simp only [adjust_exposure]
  have hv : (if d = "up" then min 8 (e.getD i 0 + 1) else max (-8) (e.getD i 0 - 1)) =
      e.getD i 0 := by
    rcases h with ⟨hd, h8⟩ | ⟨hd, h8⟩
    · rw [if_pos hd, h8]; norm_num
    · rw [if_neg hd, h8]; norm_num
  rw [hv, set_getD_self e i hlen]

/-- When stepping would write back the value already stored (as happens at
a bound), `adjust_brightness` is the identity on the whole state. -/
lemma adjust_brightness_noop (st : CtrlState) (i : Nat) (d : String)
    (hlen : i < st.brightness_values.length)
    (h : (d = "up" ∧ st.brightness_values.getD i 0 = 100) ∨
         (d ≠ "up" ∧ st.brightness_values.getD i 0 = -100)) :
    adjust_brightness st i d = st := by
  obtain ⟨a, p, e, b, r⟩ := st
  simp only [adjust_brightness]
  have hv : (if d = "up" then min 100 (b.getD i 0 + 5) else max (-100) (b.getD i 0 - 5)) =
      b.getD i 0 := by
    rcases h with ⟨hd, h8⟩ | ⟨hd, h8⟩
    · rw [if_pos hd, h8]; norm_num
    · rw [if_neg hd, h8]; norm_num
  rw [hv, set_getD_self b i hlen]

/-- C1: for every sequence of `adjust_exposure` / `adjust_brightness`
calls (any camera index, any direction string) starting from the initial
state, every stored exposure value stays in [-8, 8] and every stored
brightness value stays in [-100, 100]; and on a valid slot (0 or 1), a
step taken while at the corresponding bound leaves the controller state
completely unchanged (a no-op, not an error). -/
theorem c1_param_bounds_and_idempotent_clamp (cmds : List AdjCmd) :
    paramInvariant (cmds.foldl applyAdj initState) ∧
    (∀ i, i < 2 →
      (((cmds.foldl applyAdj initState).exposure_values.getD i 0 = 8 →
          adjust_exposure (cmds.foldl applyAdj initState) i "up" =
            cmds.foldl applyAdj initState) ∧
       ((cmds.foldl applyAdj initState).exposure_values.getD i 0 = -8 →
          ∀ d, d ≠ "up" →
            adjust_exposure (cmds.foldl applyAdj initState) i d =
              cmds.foldl applyAdj initState) ∧
       ((cmds.foldl applyAdj initState).brightness_values.getD i 0 = 100 →
          adjust_brightness (cmds.foldl applyAdj initState) i "up" =
            cmds.foldl applyAdj initState) ∧
       ((cmds.foldl applyAdj initState).brightness_values.getD i 0 = -100 →
          ∀ d, d ≠ "up" →
            adjust_brightness (cmds.foldl applyAdj initState) i d =
              cmds.foldl applyAdj initState))) := by
  obtain ⟨hp, hl1, hl2⟩ := wellFormed_foldl cmds initState (by decide)
  refine ⟨hp, ?_⟩
  intro i hi
  refine ⟨?_, ?_, ?_, ?_⟩
  · intro h8
    exact adjust_exposure_noop _ i "up" (by omega) (Or.inl ⟨rfl, h8⟩)
  · intro h8 d hd
    exact adjust_exposure_noop _ i d (by omega) (Or.inr ⟨hd, h8⟩)
  · intro h8
    exact adjust_brightness_noop _ i "up" (by omega) (Or.inl ⟨rfl, h8⟩)
  · intro h8 d hd
    exact adjust_brightness_noop _ i d (by omega) (Or.inr ⟨hd, h8⟩)

/-- Witness for C1: nine exposure-up commands on camera 0 drive the value
to the clamp 8 (not 9), the bounds invariant holds there, and a further
up-step is a complete no-op. -/
theorem c1_witness :
    ((List.replicate 9 (AdjCmd.exp 0 "up")).foldl applyAdj initState).exposure_values = [8, 0] ∧
    paramInvariant ((List.replicate 9 (AdjCmd.exp 0 "up")).foldl applyAdj initState) ∧
    adjust_exposure ((List.replicate 9 (AdjCmd.exp 0 "up")).foldl applyAdj initState) 0 "up" =
      (List.replicate 9 (AdjCmd.exp 0 "up")).foldl applyAdj initState := by
  have h := c1_param_bounds_and_idempotent_clamp (List.replicate 9 (AdjCmd.exp 0 "up"))
  exact ⟨by decide, h.1, ((h.2 0 (by norm_num)).1 (by decide))⟩

/-- A raised `capture_array` makes `capture_image` propagate the
exception. -/
lemma capture_image_none (st : CtrlState) (idx : Nat) (cap : Nat → Option (List Nat))
    (ts : String) (h : cap idx = none) : capture_image st idx cap ts = none := by
  simp only [capture_image, h]

/-- A successful `capture_array` makes `capture_image` write and return
the brightness-processed frame under the derived filename. -/
lemma capture_image_some (st : CtrlState) (idx : Nat) (cap : Nat → Option (List Nat))
    (ts : String) (img : List Nat) (h : cap idx = some img) :
    capture_image st idx cap ts =
      some (capture_filename idx ts,
        if st.brightness_values.getD idx 0 ≠ 0
          then convertScaleAbs 1 (st.brightness_values.getD idx 0) img else img) := by
  simp only [capture_image, h]

/-- C2 counterexample: in the main-loop capture section, when camera 0's
`capture_array` raises, the iteration does not continue with camera 1's
frame alone — it aborts with the uncaught exception (`none`), and camera 1
is never even captured (the invocation trace is `[0]`).  The claim's
skip-and-continue behavior would instead give `some [[1, 2, 3]]` with
trace `[0, 1]` under the identity overlay. -/
theorem c2_counterexample :
    loop_capture idOverlay initState capFail0 = (none, [0]) ∧
    (loop_capture idOverlay initState capFail0).1 ≠ some [[1, 2, 3]] ∧
    (loop_capture idOverlay initState capFail0).2 ≠ [0, 1] := by decide

/-- C2 amended: there is no per-slot exception handling in the main loop
(lines 153-165): a capture failure on camera 0 aborts the iteration
immediately (camera 1 is not captured), and a capture failure on camera 1
aborts it after camera 0's frame; in both cases the exception propagates
out of `run`, which has no handler, so the loop crashes rather than
skipping the failing slot. -/
theorem c2_amended (overlay : CtrlState → Nat → List Nat → List Nat) (st : CtrlState)
    (cap : Nat → Option (List Nat)) :
    (cap 0 = none → loop_capture overlay st cap = (none, [0])) ∧
    (∀ f0, cap 0 = some f0 → cap 1 = none → loop_capture overlay st cap = (none, [0, 1])) := by
  constructor
  · intro h0
    simp only [loop_capture, show List.range 2 = [0, 1] from rfl, loop_capture_go, h0]
  · intro f0 h0 h1
    simp only [loop_capture, show List.range 2 = [0, 1] from rfl, loop_capture_go, h0, h1]
    rfl

/-- Witness for the amended C2: with camera 1's capture raising, the
iteration aborts after invoking both captures and produces no frames. -/
theorem c2_amended_witness :
    loop_capture idOverlay initState capFail1 = (none, [0, 1]) := by
  have h := (c2_amended idOverlay initState capFail1).2 [9] rfl rfl
  exact h

/-- C3 counterexample: dispatching save-all (`d`) with camera 0's capture
raising writes no file at all — in particular no file for the unaffected
camera 1 — because the bare `for i in range(2): self.capture_image(i)`
loop propagates the exception before attempting camera 1.  The claim would
instead require camera 1's file to be produced and the failure to be
reported independently. -/
theorem c3_counterexample :
    save_all initState capFail0 "20260101_000000" = (none, []) ∧
    (save_all initState capFail0 "20260101_000000").2 = [] := by decide

/-- C3 amended: save-all calls `capture_image` for every camera in index
order only as long as every save succeeds; a failure of camera i's save
raises, so the remaining cameras are not attempted and the single
exception propagates out of the loop (files written before the failure
remain on disk). -/
theorem c3_amended (st : CtrlState) (cap : Nat → Option (List Nat)) (ts : String) :
    (cap 0 = none → save_all st cap ts = (none, [])) ∧
    (∀ img0, cap 0 = some img0 → cap 1 = none →
      save_all st cap ts = (none,
        [(capture_filename 0 ts,
          if st.brightness_values.getD 0 0 ≠ 0
            then convertScaleAbs 1 (st.brightness_values.getD 0 0) img0 else img0)])) ∧
    (∀ img0 img1, cap 0 = some img0 → cap 1 = some img1 →
      save_all st cap ts = (some (),
        [(capture_filename 0 ts,
          if st.brightness_values.getD 0 0 ≠ 0
            then convertScaleAbs 1 (st.brightness_values.getD 0 0) img0 else img0),
         (capture_filename 1 ts,
          if st.brightness_values.getD 1 0 ≠ 0
            then convertScaleAbs 1 (st.brightness_values.getD 1 0) img1 else img1)])) := by
  refine ⟨?_, ?_, ?_⟩
  · intro h0
    simp only [save_all, show List.range 2 = [0, 1] from rfl, save_all_go,
      capture_image_none st 0 cap ts h0]
  · intro img0 h0 h1
    simp only [save_all, show List.range 2 = [0, 1] from rfl, save_all_go,
      capture_image_some st 0 cap ts img0 h0, capture_image_none st 1 cap ts h1]
  · intro img0 img1 h0 h1
    simp only [save_all, show List.range 2 = [0, 1] from rfl, save_all_go,
      capture_image_some st 0 cap ts img0 h0, capture_image_some st 1 cap ts img1 h1]

/-- Witness for the amended C3: with both captures succeeding, save-all
completes and writes camera 1's file then camera 2's file, in index
order. -/
theorem c3_amended_witness :
    save_all initState capOk "20260101_000000" =
      (some (), [("camera_captures/camera1_20260101_000000.jpg", [1, 2, 3]),
                 ("camera_captures/camera2_20260101_000000.jpg", [1, 2, 3])]) := by
  have h := (c3_amended initState capOk "20260101_000000").2.2 [1, 2, 3] [1, 2, 3] rfl rfl
  rw [h]
  rfl

/-- C4: for every state, camera index, raw frame and call-time timestamp
string, `capture_image` writes (and pairs with its returned path) the raw
frame with exactly the stored brightness adjustment applied — the frame
unchanged when the stored brightness is 0 — with no overlay step, and the
returned path is `camera_captures/camera{idx+1}_{timestamp}.jpg`, so the
slot label is index + 1 (slot index 1 is labeled camera2). -/
theorem c4_snapshot_content_and_name (st : CtrlState) (idx : Nat) (raw : List Nat)
    (ts : String) :
    capture_image st idx (fun _ => some raw) ts =
      some (capture_filename idx ts,
        if st.brightness_values.getD idx 0 ≠ 0
          then convertScaleAbs 1 (st.brightness_values.getD idx 0) raw else raw) ∧
    (st.brightness_values.getD idx 0 = 0 →
      capture_image st idx (fun _ => some raw) ts = some (capture_filename idx ts, raw)) ∧
    capture_filename idx ts =
      save_directory ++ "/camera" ++ toString (idx + 1) ++ "_" ++ ts ++ ".jpg" := by
  have h1 : capture_image st idx (fun _ => some raw) ts =
      some (capture_filename idx ts,
        if st.brightness_values.getD idx 0 ≠ 0
          then convertScaleAbs 1 (st.brightness_values.getD idx 0) raw else raw) := rfl
  refine ⟨h1, ?_, rfl⟩
  intro h0
  rw [h1, h0]
  simp

/-- Witness for C4: on the initial state (brightness 0), slot index 1,
a concrete raw frame and timestamp, the snapshot is the unmodified frame
and the filename is labeled camera2. -/
theorem c4_witness :
    capture_image initState 1 capOk "20260101_000000" =
      some ("camera_captures/camera2_20260101_000000.jpg", [1, 2, 3]) := by
  have h := (c4_snapshot_content_and_name initState 1 [1, 2, 3] "20260101_000000").2.1 (by decide)
  show capture_image initState 1 (fun _ => some [1, 2, 3]) "20260101_000000" = _
  rw [h]
  rfl

/-- C5 counterexample: at the initial state, `change_resolution` does
advance the index to 1 and the newly selected option is (1280, 720), but
the Python function body ends without a `return` statement, so the call
returns `None` — not the newly selected (width, height) pair as the claim
states. -/
theorem c5_counterexample :
    (change_resolution initState).state.current_resolution_idx = 1 ∧
    resolution_options.getD 1 (0, 0) = (1280, 720) ∧
    (change_resolution initState).ret = none ∧
    (change_resolution initState).ret ≠ some (1280, 720) := by decide

/-- C5 amended: `change_resolution` advances the shared resolution index
by exactly 1 modulo the number of resolution options and reconfigures both
cameras with the newly selected (width, height) pair, but returns `None`
rather than that pair. -/
theorem c5_amended_cycle_resolution (st : CtrlState) :
    (change_resolution st).state.current_resolution_idx =
      (st.current_resolution_idx + 1) % resolution_options.length ∧
    (change_resolution st).ret = none ∧
    DevEvent.configure 0
        (resolution_options.getD
          ((st.current_resolution_idx + 1) % resolution_options.length) (0, 0)) ∈
      (change_resolution st).events ∧
    DevEvent.configure 1
        (resolution_options.getD
          ((st.current_resolution_idx + 1) % resolution_options.length) (0, 0)) ∈
      (change_resolution st).events := by
  refine ⟨rfl, rfl, ?_, ?_⟩ <;>
    simp [change_resolution, List.mem_cons]

/-- Index of the state reached by one `change_resolution` call. -/
lemma cycle_state_idx (st : CtrlState) :
    (cycle_state st).current_resolution_idx = (st.current_resolution_idx + 1) % 4 := rfl

/-- C6: from any reachable resolution index (the index is always kept
below the option count), calling `change_resolution` as many times as
there are resolution options restores the original index, and hence the
original (width, height) pair. -/
theorem c6_resolution_cycle (st : CtrlState)
    (h : st.current_resolution_idx < resolution_options.length) :
    (cycle_state^[resolution_options.length] st).current_resolution_idx =
      st.current_resolution_idx ∧
    resolution_options.getD
        (cycle_state^[resolution_options.length] st).current_resolution_idx (0, 0) =
      resolution_options.getD st.current_resolution_idx (0, 0) := by
  have h4 : st.current_resolution_idx < 4 := h
  have hidx : (cycle_state^[resolution_options.length] st).current_resolution_idx =
      st.current_resolution_idx := by
    show (cycle_state (cycle_state (cycle_state (cycle_state st)))).current_resolution_idx = _
    simp only [cycle_state_idx]
    omega
  exact ⟨hidx, by rw [hidx]⟩

/-- Witness for C6: four cycles from the initial state come back to
resolution index 0. -/
theorem c6_witness :
    initState.current_resolution_idx < resolution_options.length ∧
    (cycle_state^[resolution_options.length] initState).current_resolution_idx =
      initState.current_resolution_idx :=
  ⟨by decide, (c6_resolution_cycle initState (by decide)).1⟩

/-- C7: the device-call trace of `change_resolution` is strictly
sequential per slot in index order: the first three calls address camera 0
(stop, configure with the new resolution, start, in that order) and only
then come the three calls addressing camera 1 (stop, configure, start); no
renegotiation of the two devices interleaves. -/
theorem c7_reconfiguration_order (st : CtrlState) :
    ((change_resolution st).events.map DevEvent.slot) = [0, 0, 0, 1, 1, 1] ∧
    (change_resolution st).events.take 3 =
      [DevEvent.stop 0,
       DevEvent.configure 0
         (resolution_options.getD
           ((st.current_resolution_idx + 1) % resolution_options.length) (0, 0)),
       DevEvent.start 0] ∧
    (change_resolution st).events.drop 3 =
      [DevEvent.stop 1,
       DevEvent.configure 1
         (resolution_options.getD
           ((st.current_resolution_idx + 1) % resolution_options.length) (0, 0)),
       DevEvent.start 1] :=
  ⟨rfl, rfl, rfl⟩

/-- C8: dispatching `p` twice restores the preview flag, and a single
`p` dispatch changes nothing but the preview flag: active camera, both
parameter lists and the resolution index are untouched. -/
theorem c8_toggle_preview_involutive (st : CtrlState) :
    (handle_key (handle_key st 'p').state 'p').state.preview_active = st.preview_active ∧
    (handle_key st 'p').state.active_camera = st.active_camera ∧
    (handle_key st 'p').state.exposure_values = st.exposure_values ∧
    (handle_key st 'p').state.brightness_values = st.brightness_values ∧
    (handle_key st 'p').state.current_resolution_idx = st.current_resolution_idx := by
  refine ⟨?_, rfl, rfl, rfl, rfl⟩
  show (!(!st.preview_active)) = st.preview_active
  exact Bool.not_not st.preview_active

/-- C9: a key matching none of the dispatch branches falls through the
whole `if/elif` chain: no save, no device call, no quit, and the entire
controller state is returned unchanged. -/
theorem c9_unrecognized_key_ignored (st : CtrlState) (key : Char)
    (h : key ∉ recognized_keys) :
    handle_key st key = { state := st, quit := false, saves := [], dev_events := [] } := by
  simp only [recognized_keys, List.mem_cons, List.not_mem_nil, or_false, not_or] at h
  obtain ⟨h1, h2, h3, h4, h5, h6, h7, h8, h9, h10, h11⟩ := h
  simp only [handle_key, if_neg h1, if_neg h2, if_neg h3, if_neg h4, if_neg h5, if_neg h6,
    if_neg h7, if_neg h8, if_neg h9, if_neg h10, if_neg h11]

/-- Witness for C9: the key `x` is unrecognized and dispatching it on the
initial state is a complete no-op. -/
theorem c9_witness :
    'x' ∉ recognized_keys ∧
    handle_key initState 'x' =
      { state := initState, quit := false, saves := [], dev_events := [] } :=
  ⟨by decide, c9_unrecognized_key_ignored initState 'x' (by decide)⟩

/-- C10: for every state, camera index and direction string other than
exactly "up", `adjust_exposure` and `adjust_brightness` behave exactly as
for "down": they decrement the parameter by its step, clamped at the lower
bound — no error and no unchanged value. -/
theorem c10_non_up_direction_decrements (st : CtrlState) (i : Nat) (d : String)
    (hd : d ≠ "up") :
    adjust_exposure st i d = adjust_exposure st i "down" ∧
    (adjust_exposure st i d).exposure_values =
      st.exposure_values.set i (max (-8) (st.exposure_values.getD i 0 - 1)) ∧
    adjust_brightness st i d = adjust_brightness st i "down" ∧
    (adjust_brightness st i d).brightness_values =
      st.brightness_values.set i (max (-100) (st.brightness_values.getD i 0 - 5)) := by
  have hdown : ¬(("down" : String) = "up") := by decide
  refine ⟨?_, ?_, ?_, ?_⟩
  · simp only [adjust_exposure, if_neg hd, if_neg hdown]
  · simp only [adjust_exposure_exposure_values, if_neg hd]
  · simp only [adjust_brightness, if_neg hd, if_neg hdown]
  · simp only [adjust_brightness_brightness_values, if_neg hd]

/-- Witness for C10: the direction string "UP" (wrong case, so not
recognized) on the initial state acts as "down" on both parameters. -/
theorem c10_witness :
    adjust_exposure initState 0 "UP" = adjust_exposure initState 0 "down" ∧
    (adjust_exposure initState 0 "UP").exposure_values =
      initState.exposure_values.set 0 (max (-8) (initState.exposure_values.getD 0 0 - 1)) ∧
    adjust_brightness initState 0 "UP" = adjust_brightness initState 0 "down" ∧
    (adjust_brightness initState 0 "UP").brightness_values =
      initState.brightness_values.set 0 (max (-100) (initState.brightness_values.getD 0 0 - 5)) :=
  c10_non_up_direction_decrements initState 0 "UP" (by decide)

end DualCam
